import Mathlib

/-!
Shallow embedding of the Express product-catalog API (`server.js`) and proofs
about its query-building, pagination, sorting, lookup, search and stats
endpoints.  Query parameters are modelled as `Option String` (`none` = absent),
the backing store as a `List Product`, and the JavaScript numeric coercions
(`parseInt`, `parseFloat`, the falsy `||` operator) as explicit functions.
The case-insensitive MongoDB `$regex` filters are modelled as literal
case-insensitive substring containment, the behaviour relevant for literal
(non-metacharacter) patterns.
-/

namespace ProductsApi

/-- A catalog record: integer `id`, four string fields, and the two decimal
price fields (`retail_price`, `cost`) modelled as rationals. -/
structure Product where
  id : Nat
  name : String
  category : String
  department : String
  brand : String
  retail_price : ℚ
  cost : ℚ
deriving Repr, DecidableEq

/-! ### JavaScript numeric parsing and truthiness -/

/-- Decimal value of a list of digit characters (most significant first). -/
def digitsVal (ds : List Char) : Nat :=
  ds.foldl (fun a c => a * 10 + (c.toNat - 48)) 0

/-- JavaScript `parseInt(s)` (radix 10, non-hex input): skip leading
whitespace, optional sign, then the longest digit run; `none` models `NaN`
(no digits found).  Trailing non-digit characters are ignored, as in JS. -/
def parseIntJS (s : String) : Option Int :=
  match s.toList.dropWhile Char.isWhitespace with
  | '-' :: rest =>
      let ds := rest.takeWhile Char.isDigit
      if ds.isEmpty then none else some (-(digitsVal ds : Int))
  | '+' :: rest =>
      let ds := rest.takeWhile Char.isDigit
      if ds.isEmpty then none else some (digitsVal ds : Int)
  | cs =>
      let ds := cs.takeWhile Char.isDigit
      if ds.isEmpty then none else some (digitsVal ds : Int)

/-- JavaScript `parseFloat(s)` for plain decimal literals (no exponent):
optional sign, integer digits, optional `.` and fraction digits; at least one
digit overall, else `none` models `NaN`. -/
def parseFloatJS (s : String) : Option ℚ :=
  let core : List Char → Option ℚ := fun cs =>
    let ip := cs.takeWhile Char.isDigit
    let rest := cs.dropWhile Char.isDigit
    let fp := match rest with
      | '.' :: r => r.takeWhile Char.isDigit
      | _ => []
    if ip.isEmpty && fp.isEmpty then none
    else some ((digitsVal ip : ℚ) + (digitsVal fp : ℚ) / (10 : ℚ) ^ fp.length)
  match s.toList.dropWhile Char.isWhitespace with
  | '-' :: rest => (core rest).map (fun q => -q)
  | '+' :: rest => core rest
  | cs => core cs

/-- JavaScript `v || d` for `v` a parsed number: `NaN` (`none`) and `0` are
falsy and give the default `d`. -/
def jsOrInt (v : Option Int) (d : Int) : Int :=
  match v with
  | none => d
  | some n => if n = 0 then d else n

/-- JavaScript `s || d` for an optional string: absent and empty are falsy. -/
def jsOrStr (v : Option String) (d : String) : String :=
  match v with
  | none => d
  | some s => if s = "" then d else s

/-- Truthiness filter for an optional string parameter: keeps it only when
present and non-empty (JS `if (x)` on a string). -/
def jsStr (v : Option String) : Option String :=
  match v with
  | none => none
  | some s => if s = "" then none else some s

/-- JavaScript `v || 0` for an optional number: `undefined` and `0` give 0. -/
def jsNumOrZero (v : Option ℚ) : ℚ :=
  match v with
  | none => 0
  | some q => if q = 0 then 0 else q

/-! ### Case-insensitive substring matching (`$regex` with option `i`) -/

/-- Test `isPrefixAt pat cs`: `pat` starts `cs`. -/
def isPrefixAt : List Char → List Char → Bool
  | [], _ => true
  | _ :: _, [] => false
  | a :: as, b :: bs => a = b && isPrefixAt as bs

/-- Test `hasSub pat hay`: `pat` occurs as a contiguous sublist of `hay`. -/
def hasSub (pat : List Char) : List Char → Bool
  | [] => isPrefixAt pat []
  | c :: t => isPrefixAt pat (c :: t) || hasSub pat t

/-- Case-insensitive substring containment: models MongoDB
`\x7b $regex: pat, $options: i \x7d` applied to field value `hay`, for literal
patterns. -/
def ciContains (hay pat : String) : Bool :=
  hasSub (pat.toList.map Char.toLower) (hay.toList.map Char.toLower)

/-! ### List endpoint: GET /api/products -/

/-- Raw query parameters of `GET /api/products`; `none` means the parameter
is absent from the query string. -/
structure ListParams where
  page : Option String := none
  limit : Option String := none
  category : Option String := none
  department : Option String := none
  brand : Option String := none
  minPrice : Option String := none
  maxPrice : Option String := none
  search : Option String := none
  sortBy : Option String := none
  sortOrder : Option String := none
deriving Repr, DecidableEq

/-- Line 42/43: `req.query.minPrice ? parseFloat(req.query.minPrice) : null`.
Outer `none` is JS `null` (absent or empty parameter), `some none` is `NaN`
(malformed number), `some (some q)` a parsed number. -/
def parsedPrice (v : Option String) : Option (Option ℚ) :=
  match v with
  | none => none
  | some s => if s = "" then none else some (parseFloatJS s)

/-- Truthiness check of lines 68–72 turning a parsed price into an active
bound: `null`, `NaN` and `0` are all falsy and impose no constraint. -/
def jsPriceBound (v : Option (Option ℚ)) : Option ℚ :=
  match v with
  | some (some q) => if q = 0 then none else some q
  | _ => none

/-- The MongoDB query object built at lines 57–72: each `some` field is an
active constraint, `none` means the key is absent from the object. -/
structure QueryObj where
  category : Option String := none
  department : Option String := none
  brand : Option String := none
  search : Option String := none
  priceGte : Option ℚ := none
  priceLte : Option ℚ := none
deriving Repr, DecidableEq

/-- Lines 57–72: build the query object from the raw parameters.  String
filters are kept when present and non-empty (JS truthiness); price bounds
when they parse to a non-zero number. -/
def buildQuery (p : ListParams) : QueryObj :=
  { category := jsStr p.category
    department := jsStr p.department
    brand := jsStr p.brand
    search := jsStr p.search
    priceGte := jsPriceBound (parsedPrice p.minPrice)
    priceLte := jsPriceBound (parsedPrice p.maxPrice) }

/-- A constraint that applies only when its key is present in the query
object: an absent key (`none`) matches every document. -/
def optConstraint {α : Type} (v : Option α) (f : α → Bool) : Bool :=
  match v with
  | some a => f a
  | none => true

/-- MongoDB evaluation of the query object on one document: the conjunction
of every present constraint; the `$or` of the `search` key is the
disjunction over `name`, `category`, `brand`. -/
def evalQuery (q : QueryObj) (pr : Product) : Bool :=
  optConstraint q.category (fun c => ciContains pr.category c) &&
  optConstraint q.department (fun d => ciContains pr.department d) &&
  optConstraint q.brand (fun b => ciContains pr.brand b) &&
  optConstraint q.search
    (fun s => ciContains pr.name s || ciContains pr.category s || ciContains pr.brand s) &&
  optConstraint q.priceGte (fun m => decide (m ≤ pr.retail_price)) &&
  optConstraint q.priceLte (fun m => decide (pr.retail_price ≤ m))

/-! ### Sorting -/

/-- A MongoDB value a sort key can take in this catalog, plus `missing` for
an unknown field name.  The MongoDB type bracketing orders
missing < numbers < strings. -/
inductive FieldVal where
  | missing
  | num (q : ℚ)
  | str (s : String)
deriving Repr, DecidableEq

/-- Field access by name, as MongoDB resolves the sort key; an unrecognised
name yields `missing`. -/
def getField (f : String) (p : Product) : FieldVal :=
  if f = "id" then .num p.id
  else if f = "name" then .str p.name
  else if f = "category" then .str p.category
  else if f = "department" then .str p.department
  else if f = "brand" then .str p.brand
  else if f = "retail_price" then .num p.retail_price
  else if f = "cost" then .num p.cost
  else .missing

/-- Comparison on field values following the MongoDB type bracketing. -/
def FieldVal.le : FieldVal → FieldVal → Bool
  | .missing, _ => true
  | .num _, .missing => false
  | .num a, .num b => decide (a ≤ b)
  | .num _, .str _ => true
  | .str _, .missing => false
  | .str _, .num _ => false
  | .str a, .str b => decide (a ≤ b)

/-- Lines 45–46 and 74–76: the single-key ordering directive
`sort[sortBy] = sortOrder`, with `sortBy` defaulting to `"id"` (falsy `||`)
and direction `-1` exactly when `sortOrder === "desc"`. -/
def mkSortDirective (sortBy sortOrder : Option String) : String × Int :=
  (jsOrStr sortBy "id", if sortOrder = some "desc" then -1 else 1)

/-- The `≤` relation the store sorts by under a directive. -/
def sortLe (d : String × Int) (a b : Product) : Bool :=
  if d.2 = -1 then FieldVal.le (getField d.1 b) (getField d.1 a)
  else FieldVal.le (getField d.1 a) (getField d.1 b)

/-- Insert into a sorted list (store-side stable sort, one step). -/
def insertLe (le : Product → Product → Bool) (a : Product) : List Product → List Product
  | [] => [a]
  | b :: bs => if le a b then a :: b :: bs else b :: insertLe le a bs

/-- Store-side sort of the result set by the relation of the ordering directive. -/
def sortList (le : Product → Product → Bool) : List Product → List Product
  | [] => []
  | a :: as => insertLe le a (sortList le as)

/-! ### Response assembly -/

/-- The `pagination` object of a successful list response (lines 99–108). -/
structure Pagination where
  currentPage : Int
  totalPages : Nat
  totalCount : Nat
  limit : Int
  hasNextPage : Bool
  hasPrevPage : Bool
  nextPage : Option Int
  prevPage : Option Int
deriving Repr, DecidableEq

/-- The `filters` echo object of a successful list response (lines 109–118). -/
structure FiltersEcho where
  category : Option String
  department : Option String
  brand : Option String
  minPrice : Option (Option ℚ)
  maxPrice : Option (Option ℚ)
  search : Option String
  sortBy : String
  sortOrder : String
deriving Repr, DecidableEq

/-- Outcome of `GET /api/products`: 400 validation error (`success:false`)
or 200 success envelope. -/
inductive ListResponse where
  | validationError (msg : String)
  | ok (data : List Product) (pagination : Pagination) (filters : FiltersEcho)
deriving Repr, DecidableEq

/-- Whether a list response is the 400 validation error. -/
def ListResponse.isValidationError : ListResponse → Bool
  | .validationError _ => true
  | .ok _ _ _ => false

/-- The error message of line 52. -/
def paginationErrMsg : String :=
  "Invalid pagination parameters. Page must be >= 1, limit must be between 1-100"

/-- Line 37: `parseInt(req.query.page) || 1`. -/
def effPage (p : ListParams) : Int :=
  jsOrInt (p.page.bind parseIntJS) 1

/-- Line 38: `parseInt(req.query.limit) || 20`. -/
def effLimit (p : ListParams) : Int :=
  jsOrInt (p.limit.bind parseIntJS) 20

/-- A numeric query parameter that is falsy under `parseInt(x) || d`:
absent, non-numeric (`NaN`), or parsing to 0. -/
def falsyParam (v : Option String) : Prop :=
  v = none ∨ ∃ s, v = some s ∧ (parseIntJS s = none ∨ parseIntJS s = some 0)

/-- The `GET /api/products` handler (lines 34–128): parameter extraction
with defaults, pagination validation, query/sort construction, the
count + find-sort-skip-limit store pass, and response assembly.  The
`catalog` argument is the backing collection; the validation branch returns
before it is consulted. -/
def listProducts (params : ListParams) (catalog : List Product) : ListResponse :=
  let page := effPage params
  let limit := effLimit params
  if page < 1 || limit < 1 || limit > 100 then
    .validationError paginationErrMsg
  else
    let q := buildQuery params
    let dir := mkSortDirective params.sortBy params.sortOrder
    let skip := ((page - 1) * limit).toNat
    let filtered := catalog.filter (fun pr => evalQuery q pr)
    let products := ((sortList (sortLe dir) filtered).drop skip).take limit.toNat
    let totalCount := filtered.length
    let totalPages := (totalCount + limit.toNat - 1) / limit.toNat
    let hasNextPage := decide (page < (totalPages : Int))
    let hasPrevPage := decide (page > 1)
    .ok products
      { currentPage := page
        totalPages := totalPages
        totalCount := totalCount
        limit := limit
        hasNextPage := hasNextPage
        hasPrevPage := hasPrevPage
        nextPage := if hasNextPage then some (page + 1) else none
        prevPage := if hasPrevPage then some (page - 1) else none }
      { category := params.category
        department := params.department
        brand := params.brand
        minPrice := parsedPrice params.minPrice
        maxPrice := parsedPrice params.maxPrice
        search := params.search
        sortBy := (mkSortDirective params.sortBy params.sortOrder).1
        sortOrder := if (mkSortDirective params.sortBy params.sortOrder).2 = 1 then "asc" else "desc" }

/-! ### Detail endpoint: GET /api/products/:id -/

/-- Outcome of `GET /api/products/:id`. -/
inductive IdResponse where
  | badFormat (msg : String)
  | notFound (msg : String)
  | found (p : Product)
deriving Repr, DecidableEq

/-- The test at line 136, `/^\d+$/.test(productId)`: non-empty and all digits. -/
def isDigitStr (s : String) : Bool :=
  !s.toList.isEmpty && s.toList.all Char.isDigit

/-- The `GET /api/products/:id` handler (lines 131–167): format check,
`parseInt`, then `findOne({ id })` modelled as the first catalog record with
that id. -/
def getProductById (idStr : String) (catalog : List Product) : IdResponse :=
  if !isDigitStr idStr then
    .badFormat "Invalid product ID format. ID must be a number"
  else
    let id := (parseIntJS idStr).getD 0
    match catalog.find? (fun p => (p.id : Int) = id) with
    | none => .notFound ("Product with ID " ++ toString id ++ " not found")
    | some p => .found p

/-! ### Search endpoint: GET /api/products/search/:term -/

/-- Outcome of `GET /api/products/search/:term`. -/
inductive SearchResponse where
  | tooShort (msg : String)
  | ok (data : List Product) (count : Nat) (searchTerm : String)
deriving Repr, DecidableEq

/-- JavaScript `String.prototype.trim()`: strip whitespace at both ends. -/
def jsTrim (s : String) : String :=
  ⟨((s.toList.dropWhile Char.isWhitespace).reverse.dropWhile Char.isWhitespace).reverse⟩

/-- The `$or` predicate of lines 182–188 (also lines 62–66): case-insensitive
substring match of the term in `name`, `category` or `brand`. -/
def searchMatch (term : String) (p : Product) : Bool :=
  ciContains p.name term || ciContains p.category term || ciContains p.brand term

/-- The `GET /api/products/search/:term` handler (lines 170–206): length
check on the trimmed term, then the `$or` find truncated by
`parseInt(req.query.limit) || 10`; `count` is the length of the data. -/
def searchProducts (term : String) (limitQ : Option String) (catalog : List Product) :
    SearchResponse :=
  let limit := jsOrInt (limitQ.bind parseIntJS) 10
  if term = "" || (jsTrim term).length < 2 then
    .tooShort "Search term must be at least 2 characters long"
  else
    let data := (catalog.filter (searchMatch term)).take limit.toNat
    .ok data data.length term

/-! ### Stats endpoint: GET /api/stats -/

/-- The single `$group` document produced by the aggregation at lines
258–270; MongoDB produces no group at all on an empty collection. -/
structure AggResult where
  avgPrice : ℚ
  minPrice : ℚ
  maxPrice : ℚ
  avgCost : ℚ
  minCost : ℚ
  maxCost : ℚ
deriving Repr, DecidableEq

/-- Minimum of a list of rationals (`$min` over a non-empty group). -/
def qMin : List ℚ → ℚ
  | [] => 0
  | [a] => a
  | a :: b :: t => min a (qMin (b :: t))

/-- Maximum of a list of rationals (`$max` over a non-empty group). -/
def qMax : List ℚ → ℚ
  | [] => 0
  | [a] => a
  | a :: b :: t => max a (qMax (b :: t))

/-- The aggregation pipeline of lines 258–270: `none` when the catalog is
empty (no group emitted), otherwise min/max/average of `retail_price` and
`cost`. -/
def aggStats (catalog : List Product) : Option AggResult :=
  match catalog with
  | [] => none
  | _ =>
    some
      { avgPrice := (catalog.map Product.retail_price).sum / catalog.length
        minPrice := qMin (catalog.map Product.retail_price)
        maxPrice := qMax (catalog.map Product.retail_price)
        avgCost := (catalog.map Product.cost).sum / catalog.length
        minCost := qMin (catalog.map Product.cost)
        maxCost := qMax (catalog.map Product.cost) }

/-- JavaScript `Math.round`: half-up rounding (toward positive infinity at
ties). -/
def jsRound (q : ℚ) : Int := ⌊q + 1 / 2⌋

/-- Rounding to two decimal places, as in `Math.round(x * 100) / 100`. -/
def round2 (q : ℚ) : ℚ := (jsRound (q * 100) : ℚ) / 100

/-- A `priceRange`/`costRange` object of the stats response. -/
structure StatRange where
  min : ℚ
  max : ℚ
  average : ℚ
deriving Repr, DecidableEq

/-- The `data` object of the stats response. -/
structure StatsData where
  totalProducts : Nat
  uniqueCategories : Nat
  uniqueDepartments : Nat
  uniqueBrands : Nat
  priceRange : StatRange
  costRange : StatRange
deriving Repr, DecidableEq

/-- The `GET /api/stats` handler (lines 245–299): count, three distinct
counts, and the aggregate, with every `priceStats[0]?.f || 0` fallback
modelled by `jsNumOrZero`. -/
def statsEndpoint (catalog : List Product) : StatsData :=
  let g := aggStats catalog
  { totalProducts := catalog.length
    uniqueCategories := (catalog.map Product.category).dedup.length
    uniqueDepartments := (catalog.map Product.department).dedup.length
    uniqueBrands := (catalog.map Product.brand).dedup.length
    priceRange :=
      { min := jsNumOrZero (g.map AggResult.minPrice)
        max := jsNumOrZero (g.map AggResult.maxPrice)
        average := round2 (jsNumOrZero (g.map AggResult.avgPrice)) }
    costRange :=
      { min := jsNumOrZero (g.map AggResult.minCost)
        max := jsNumOrZero (g.map AggResult.maxCost)
        average := round2 (jsNumOrZero (g.map AggResult.avgCost)) } }

/-! ### Spec-side definitions (from the wording of the specification, for
refinement comparisons) -/

/-- Spec-side conjunct for one string filter: "if present, predicate
requires case-insensitive substring match on the respective field;
empty/absent parameter imposes no constraint". -/
def specFieldOk (param : Option String) (fieldVal : String) : Bool :=
  optConstraint param (fun s => if s = "" then true else ciContains fieldVal s)

/-- Spec-side search conjunct: "if present and non-empty, predicate requires
case-insensitive substring match on name OR category OR brand". -/
def specSearchOk (param : Option String) (p : Product) : Bool :=
  optConstraint param (fun s =>
    if s = "" then true
    else ciContains p.name s || ciContains p.category s || ciContains p.brand s)

/-- Spec-side text-filter predicate: the logical AND of the four conjuncts
above. -/
def specTextMatch (params : ListParams) (p : Product) : Bool :=
  specFieldOk params.category p.category &&
  specFieldOk params.department p.department &&
  specFieldOk params.brand p.brand &&
  specSearchOk params.search p

/-! ### Sample data used by witnesses and counterexamples -/

/-- A concrete catalog record. -/
def sampleProduct : Product :=
  { id := 1, name := "Nike Air Max", category := "Shoes", department := "Men"
    brand := "Nike", retail_price := 100, cost := 60 }

/-- A second concrete catalog record. -/
def sampleProduct2 : Product :=
  { id := 2, name := "Levi Jeans", category := "Pants", department := "Men"
    brand := "Levi", retail_price := 50, cost := 30 }

/-- A one-record catalog. -/
def sampleCatalog : List Product := [sampleProduct]

/-- A two-record catalog. -/
def sampleCatalog2 : List Product := [sampleProduct, sampleProduct2]

/-! ## Theorems -/

/-- In the success branch of `listProducts` the validated bounds hold and
the response components are exactly the assembled ones. -/
theorem listProducts_ok_elim (params : ListParams) (catalog : List Product)
    (data : List Product) (pag : Pagination) (filt : FiltersEcho)
    (h : listProducts params catalog = .ok data pag filt) :
    1 ≤ effPage params ∧ 1 ≤ effLimit params ∧ effLimit params ≤ 100 ∧
    data = ((sortList (sortLe (mkSortDirective params.sortBy params.sortOrder))
        (catalog.filter (fun pr => evalQuery (buildQuery params) pr))).drop
          ((effPage params - 1) * effLimit params).toNat).take (effLimit params).toNat ∧
    pag.currentPage = effPage params ∧
    pag.limit = effLimit params ∧
    pag.totalCount = (catalog.filter (fun pr => evalQuery (buildQuery params) pr)).length ∧
    pag.totalPages =
      ((catalog.filter (fun pr => evalQuery (buildQuery params) pr)).length +
        (effLimit params).toNat - 1) / (effLimit params).toNat ∧
    pag.hasNextPage = decide (pag.currentPage < (pag.totalPages : Int)) ∧
    pag.hasPrevPage = decide (1 < pag.currentPage) ∧
    pag.nextPage = (if pag.hasNextPage then some (pag.currentPage + 1) else none) ∧
    pag.prevPage = (if pag.hasPrevPage then some (pag.currentPage - 1) else none) := by
  simp only [listProducts] at h
  split at h
  · simp at h
  · rename_i hcond
    simp only [Bool.or_eq_true, decide_eq_true_eq, not_or, not_lt] at hcond
    injection h with hd hp hf
    subst hd
    subst hp
    obtain ⟨⟨h1, h2⟩, h3⟩ := hcond
    refine ⟨h1, h2, h3, rfl, ?_⟩
    simp

/-- If the chosen page and limit pass validation, the response is a success
envelope (not a 400). -/
theorem listProducts_ok_of_valid (params : ListParams) (catalog : List Product)
    (h1 : 1 ≤ effPage params) (h2 : 1 ≤ effLimit params) (h3 : effLimit params ≤ 100) :
    (listProducts params catalog).isValidationError = false := by
  simp only [listProducts]
  split
  · rename_i hcond
    simp only [Bool.or_eq_true, decide_eq_true_eq] at hcond
    omega
  · rfl

/-- If the chosen page or limit fails validation, the response is the 400
validation error, produced before the catalog is consulted. -/
theorem listProducts_invalid (params : ListParams) (catalog : List Product)
    (h : effPage params < 1 ∨ effLimit params < 1 ∨ 100 < effLimit params) :
    listProducts params catalog = .validationError paginationErrMsg := by
  simp only [listProducts]
  split
  · rfl
  · rename_i hcond
    simp only [Bool.or_eq_true, decide_eq_true_eq, not_or, not_lt] at hcond
    omega

/-- C10: independently of every other parameter, an absent, non-numeric, or
zero `page` parameter defaults to 1, and an absent, non-numeric, or zero
`limit` parameter defaults to 20; the defaults are applied before the
pagination validation, so a falsy-`page` request whose (defaulted) limit is
in bounds, and a falsy-`limit` request whose (defaulted) page is at
least 1, are served with a success envelope, not a 400. -/
theorem c10_falsy_params_default (params : ListParams) (catalog : List Product) :
    (falsyParam params.page → effPage params = 1) ∧
    (falsyParam params.limit → effLimit params = 20) ∧
    (falsyParam params.page → 1 ≤ effLimit params → effLimit params ≤ 100 →
      (listProducts params catalog).isValidationError = false) ∧
    (falsyParam params.limit → 1 ≤ effPage params →
      (listProducts params catalog).isValidationError = false) := by
  have h1 : falsyParam params.page → effPage params = 1 := by
    rintro (h | ⟨s, hs, h | h⟩)
    · simp [effPage, h, jsOrInt]
    · simp [effPage, hs, h, jsOrInt]
    · simp [effPage, hs, h, jsOrInt]
  have h2 : falsyParam params.limit → effLimit params = 20 := by
    rintro (h | ⟨s, hs, h | h⟩)
    · simp [effLimit, h, jsOrInt]
    · simp [effLimit, hs, h, jsOrInt]
    · simp [effLimit, hs, h, jsOrInt]
  refine ⟨h1, h2, ?_, ?_⟩
  · intro hp hlo hhi
    have := h1 hp
    exact listProducts_ok_of_valid params catalog (by omega) hlo hhi
  · intro hl hpo
    have := h2 hl
    exact listProducts_ok_of_valid params catalog hpo (by omega) (by omega)

/-- Witness for C10 at `page=0&limit=50` (page defaults independently of a
non-falsy limit and the request is served) and at `page=3&limit=abc` (limit
defaults independently of a non-falsy page and the request is served). -/
theorem c10_falsy_params_default_witness :
    effPage { page := some "0", limit := some "50" } = 1 ∧
    (listProducts { page := some "0", limit := some "50" } sampleCatalog).isValidationError
      = false ∧
    effLimit { page := some "3", limit := some "abc" } = 20 ∧
    (listProducts { page := some "3", limit := some "abc" } sampleCatalog).isValidationError
      = false :=
  ⟨(c10_falsy_params_default { page := some "0", limit := some "50" } sampleCatalog).1
      (Or.inr ⟨"0", rfl, Or.inr (by decide)⟩),
    (c10_falsy_params_default { page := some "0", limit := some "50" } sampleCatalog).2.2.1
      (Or.inr ⟨"0", rfl, Or.inr (by decide)⟩) (by decide) (by decide),
    (c10_falsy_params_default { page := some "3", limit := some "abc" } sampleCatalog).2.1
      (Or.inr ⟨"abc", rfl, Or.inl (by decide)⟩),
    (c10_falsy_params_default { page := some "3", limit := some "abc" } sampleCatalog).2.2.2
      (Or.inr ⟨"abc", rfl, Or.inl (by decide)⟩) (by decide)⟩

/-- C1 counterexample: a request with `page=0` is NOT answered with a 400
validation error (the falsy default turns the page into 1), and the store IS
consulted (the response depends on the catalog), contradicting the claim for
the `page = 0` case. -/
theorem c1_counterexample_page_zero :
    (listProducts { page := some "0" } sampleCatalog).isValidationError = false ∧
    listProducts { page := some "0" } sampleCatalog ≠ listProducts { page := some "0" } [] := by
  constructor
  · decide
  · decide

/-- C1 (amended): a request with `limit=101` — and in general any request
whose page or limit, after `parseInt` and the falsy defaulting of line 37–38,
is outside `page ≥ 1, 1 ≤ limit ≤ 100` — yields the 400 validation error,
with no store access (the response does not depend on the catalog); requests
with `page=0` or `limit=0` instead parse to falsy values, are replaced by the
defaults 1 and 20, and are served normally (see `c10`). -/
theorem c1_amended_invalid_pagination_400 (params : ListParams) (catalog : List Product) :
    (listProducts { params with limit := some "101" } catalog
        = .validationError paginationErrMsg ∧
      listProducts { params with limit := some "101" } catalog
        = listProducts { params with limit := some "101" } []) ∧
    ((effPage params < 1 ∨ effLimit params < 1 ∨ 100 < effLimit params) →
      listProducts params catalog = .validationError paginationErrMsg ∧
      listProducts params catalog = listProducts params []) := by
  have hlim : effLimit { params with limit := some "101" } = 101 := rfl
  constructor
  · have h := listProducts_invalid { params with limit := some "101" } catalog
      (Or.inr (Or.inr (by omega)))
    have h0 := listProducts_invalid { params with limit := some "101" } []
      (Or.inr (Or.inr (by omega)))
    exact ⟨h, h.trans h0.symm⟩
  · intro hv
    have h := listProducts_invalid params catalog hv
    have h0 := listProducts_invalid params [] hv
    exact ⟨h, h.trans h0.symm⟩

/-- Witness for the amended C1 at a concrete invalid request (`page=-2`). -/
theorem c1_amended_invalid_pagination_400_witness :
    listProducts { page := some "-2" } sampleCatalog = .validationError paginationErrMsg :=
  ((c1_amended_invalid_pagination_400 { page := some "-2" } sampleCatalog).2
    (Or.inl (by decide))).1

/-- Lower bound for the `(n + l - 1) / l` ceiling-division pattern:
`n ≤ ⌈n/l⌉ * l`. -/
theorem le_ceilDivNat_mul (n l : ℕ) (hl : 0 < l) : n ≤ (n + l - 1) / l * l := by
  have hdm := Nat.div_add_mod (n + l - 1) l
  have hmod : (n + l - 1) % l < l := Nat.mod_lt _ hl
  have hsub : n + l - 1 + 1 = n + l := by omega
  have hdm2 : l * ((n + l - 1) / l) + (n + l - 1) % l + 1 = n + l := by
    have := congrArg (· + 1) hdm
    simpa [hsub] using this
  nlinarith [hdm2, hmod]

/-- Upper bound for the ceiling-division pattern: `⌈n/l⌉ * l < n + l`. -/
theorem ceilDivNat_mul_lt (n l : ℕ) (hl : 0 < l) : (n + l - 1) / l * l + 1 ≤ n + l := by
  have hup : (n + l - 1) / l * l ≤ n + l - 1 := Nat.div_mul_le_self _ _
  omega

/-- The `Math.ceil(totalCount / limit)` computation: the natural-number
expression `(n + l - 1) / l` is the true rational ceiling of `n / l`. -/
theorem ceilDivNat_cast (n l : ℕ) (hl : 0 < l) :
    (((n + l - 1) / l : ℕ) : ℤ) = ⌈(n : ℚ) / (l : ℚ)⌉ := by
  set m : ℕ := (n + l - 1) / l with hm
  have h1 : n ≤ m * l := le_ceilDivNat_mul n l hl
  have h2 : m * l + 1 ≤ n + l := ceilDivNat_mul_lt n l hl
  have hl' : (0 : ℚ) < (l : ℚ) := by exact_mod_cast hl
  rw [eq_comm, Int.ceil_eq_iff]
  constructor
  · rw [lt_div_iff₀ hl']
    have h2' : (m : ℚ) * l + 1 ≤ (n : ℚ) + l := by exact_mod_cast h2
    push_cast
    nlinarith [h2']
  · rw [div_le_iff₀ hl']
    have h1' : (n : ℚ) ≤ (m : ℚ) * l := by exact_mod_cast h1
    push_cast
    nlinarith [h1']

/-- C2: in every successful list response the pagination metadata is
internally consistent: the page and limit are the validated ones,
`totalPages` is the rational ceiling of `totalCount / limit`, `hasNextPage`
holds exactly when `currentPage < totalPages`, `hasPrevPage` exactly when
`currentPage > 1`, and `nextPage` / `prevPage` are `currentPage ± 1` when
the respective flag is true and `null` (`none`) otherwise. -/
theorem c2_pagination_metadata (params : ListParams) (catalog : List Product)
    (data : List Product) (pag : Pagination) (filt : FiltersEcho)
    (h : listProducts params catalog = .ok data pag filt) :
    1 ≤ pag.currentPage ∧ 1 ≤ pag.limit ∧ pag.limit ≤ 100 ∧
    (pag.totalPages : ℤ) = ⌈(pag.totalCount : ℚ) / (pag.limit : ℚ)⌉ ∧
    (pag.hasNextPage = true ↔ pag.currentPage < (pag.totalPages : ℤ)) ∧
    (pag.hasPrevPage = true ↔ 1 < pag.currentPage) ∧
    pag.nextPage = (if pag.hasNextPage then some (pag.currentPage + 1) else none) ∧
    pag.prevPage = (if pag.hasPrevPage then some (pag.currentPage - 1) else none) := by
  obtain ⟨h1, h2, h3, hdata, hcp, hlim, htc, htp, hnx, hpv, hnp, hpp⟩ :=
    listProducts_ok_elim params catalog data pag filt h
  have hLpos : 0 < (effLimit params).toNat := by omega
  have hLl : ((effLimit params).toNat : ℤ) = effLimit params := Int.toNat_of_nonneg (by omega)
  refine ⟨by omega, by omega, by omega, ?_, ?_, ?_, hnp, hpp⟩
  · rw [htp, htc, hlim]
    rw [ceilDivNat_cast _ _ hLpos]
    have hc : (((effLimit params).toNat : ℕ) : ℚ) = ((effLimit params : ℤ) : ℚ) := by
      exact_mod_cast hLl
    rw [hc]
  · rw [hnx]
    simp
  · rw [hpv]
    simp

/-- Witness for C2 on the empty catalog with default parameters. -/
theorem c2_pagination_metadata_witness :
    ((Pagination.mk 1 0 0 20 false false none none).totalPages : ℤ) =
      ⌈((Pagination.mk 1 0 0 20 false false none none).totalCount : ℚ) /
        ((Pagination.mk 1 0 0 20 false false none none).limit : ℚ)⌉ :=
  (c2_pagination_metadata {} [] [] (Pagination.mk 1 0 0 20 false false none none)
    (FiltersEcho.mk none none none none none none "id" "asc") (by decide)).2.2.2.1

/-- Inserting into a list grows its length by one. -/
theorem length_insertLe (le : Product → Product → Bool) (a : Product) (l : List Product) :
    (insertLe le a l).length = l.length + 1 := by
  induction l with
  | nil => rfl
  | cons b bs ih =>
      simp only [insertLe]
      split
      · simp
      · simp [ih]

/-- The store-side sort is a permutation in particular of the same length. -/
theorem length_sortList (le : Product → Product → Bool) (l : List Product) :
    (sortList le l).length = l.length := by
  induction l with
  | nil => rfl
  | cons a as ih => simp [sortList, length_insertLe, ih]

/-- C3: every successful list response reports the requested page as
`currentPage`, returns exactly the window `[skip, skip+limit)` of the
filtered-and-sorted sequence with `skip = (page-1)*limit` (hence at most
`limit` records), reports the full filtered count as `totalCount`, and a
page beyond `totalPages` yields the empty data sequence. -/
theorem c3_data_window (params : ListParams) (catalog : List Product)
    (data : List Product) (pag : Pagination) (filt : FiltersEcho)
    (h : listProducts params catalog = .ok data pag filt) :
    pag.currentPage = effPage params ∧
    data = ((sortList (sortLe (mkSortDirective params.sortBy params.sortOrder))
        (catalog.filter (fun pr => evalQuery (buildQuery params) pr))).drop
          ((effPage params - 1) * effLimit params).toNat).take (effLimit params).toNat ∧
    data.length ≤ (effLimit params).toNat ∧
    pag.totalCount = (catalog.filter (fun pr => evalQuery (buildQuery params) pr)).length ∧
    ((pag.totalPages : ℤ) < pag.currentPage → data = []) := by
  obtain ⟨h1, h2, h3, hdata, hcp, hlim, htc, htp, hnx, hpv, hnp, hpp⟩ :=
    listProducts_ok_elim params catalog data pag filt h
  refine ⟨hcp, hdata, ?_, htc, ?_⟩
  · rw [hdata]
    exact List.length_take_le _ _
  · intro hgt
    rw [htp, hcp] at hgt
    set N : ℕ := (catalog.filter (fun pr => evalQuery (buildQuery params) pr)).length with hN
    set L : ℕ := (effLimit params).toNat with hL
    have hLpos : 0 < L := by omega
    have hmulN : N ≤ (N + L - 1) / L * L := le_ceilDivNat_mul N L hLpos
    have hLl : (L : ℤ) = effLimit params := Int.toNat_of_nonneg (by omega)
    have hpg : (((N + L - 1) / L : ℕ) : ℤ) ≤ effPage params - 1 := by omega
    have hstep : (((N + L - 1) / L : ℕ) : ℤ) * (L : ℤ) ≤
        (effPage params - 1) * effLimit params := by
      rw [← hLl]
      exact mul_le_mul_of_nonneg_right hpg (by positivity)
    have hskip : (N : ℤ) ≤ (effPage params - 1) * effLimit params := by
      calc (N : ℤ) ≤ (((N + L - 1) / L * L : ℕ) : ℤ) := by exact_mod_cast hmulN
        _ = (((N + L - 1) / L : ℕ) : ℤ) * (L : ℤ) := by push_cast; ring
        _ ≤ (effPage params - 1) * effLimit params := hstep
    have hskipN : N ≤ ((effPage params - 1) * effLimit params).toNat := by
      set P : ℤ := (effPage params - 1) * effLimit params with hP
      omega
    rw [hdata]
    have hlen : (sortList (sortLe (mkSortDirective params.sortBy params.sortOrder))
        (catalog.filter (fun pr => evalQuery (buildQuery params) pr))).length ≤
        ((effPage params - 1) * effLimit params).toNat := by
      rw [length_sortList]
      exact hskipN
    rw [List.drop_eq_nil_of_le hlen, List.take_nil]

/-- Witness for C3: requesting page 5 of a one-record catalog yields empty
data while `totalCount` still reports the full filtered count. -/
theorem c3_data_window_witness :
    (Pagination.mk 5 1 1 20 false true none (some 4)).totalCount =
      (sampleCatalog.filter
        (fun pr => evalQuery (buildQuery { page := some "5" }) pr)).length ∧
    ([] : List Product) = [] :=
  have h := c3_data_window { page := some "5" } sampleCatalog []
    (Pagination.mk 5 1 1 20 false true none (some 4))
    (FiltersEcho.mk none none none none none none "id" "asc") (by decide)
  ⟨h.2.2.2.1, h.2.2.2.2 (by decide)⟩

/-- An active `$gte` price constraint forces `retail_price` at least the
bound on every matching document. -/
theorem evalQuery_priceGte (q : QueryObj) (p : Product) (m : ℚ) (hg : q.priceGte = some m)
    (h : evalQuery q p = true) : m ≤ p.retail_price := by
  simp only [evalQuery, hg, optConstraint, Bool.and_eq_true, decide_eq_true_eq] at h
  exact h.1.2

/-- An active `$lte` price constraint forces `retail_price` at most the
bound on every matching document. -/
theorem evalQuery_priceLte (q : QueryObj) (p : Product) (m : ℚ) (hl : q.priceLte = some m)
    (h : evalQuery q p = true) : p.retail_price ≤ m := by
  simp only [evalQuery, hl, optConstraint, Bool.and_eq_true, decide_eq_true_eq] at h
  exact h.2

/-- Composing a constraint with the JS string-truthiness filter is the same
as guarding the constraint by emptiness. -/
theorem optConstraint_jsStr (v : Option String) (g : String → Bool) :
    optConstraint (jsStr v) g = optConstraint v (fun s => if s = "" then true else g s) := by
  cases v with
  | none => rfl
  | some s =>
      by_cases h : s = "" <;> simp [jsStr, optConstraint, h]

/-- The built filter, restricted to its text conjuncts, equals the predicate of the spec. -/
theorem evalQuery_eq_specTextMatch (params : ListParams) (p : Product) :
    evalQuery (buildQuery params) p =
      (specTextMatch params p &&
        optConstraint (jsPriceBound (parsedPrice params.minPrice))
          (fun m => decide (m ≤ p.retail_price)) &&
        optConstraint (jsPriceBound (parsedPrice params.maxPrice))
          (fun m => decide (p.retail_price ≤ m))) := by
  simp only [evalQuery, buildQuery, specTextMatch, specFieldOk, specSearchOk,
    optConstraint_jsStr, Bool.and_assoc]

/-- C4: the list filter is the logical AND of a case-insensitive substring
conjunct for each of `category`/`department`/`brand` that is present and
non-empty, and — when `search` is present and non-empty — the disjunction
of substring matches over `name`/`category`/`brand`; a returned product
satisfies every active text conjunct, and when no price bound is active the
filter coincides exactly with that conjunction. -/
theorem c4_filter_is_conjunction (params : ListParams) (p : Product) :
    (evalQuery (buildQuery params) p = true →
      specFieldOk params.category p.category = true ∧
      specFieldOk params.department p.department = true ∧
      specFieldOk params.brand p.brand = true ∧
      specSearchOk params.search p = true) ∧
    (jsPriceBound (parsedPrice params.minPrice) = none →
      jsPriceBound (parsedPrice params.maxPrice) = none →
      evalQuery (buildQuery params) p = specTextMatch params p) := by
  constructor
  · intro h
    rw [evalQuery_eq_specTextMatch] at h
    simp only [specTextMatch, Bool.and_eq_true] at h
    tauto
  · intro hmin hmax
    rw [evalQuery_eq_specTextMatch, hmin, hmax]
    simp [optConstraint]

/-- Witness for C4 on a concrete one-filter request and matching product. -/
theorem c4_filter_is_conjunction_witness :
    evalQuery (buildQuery { category := some "shoe" }) sampleProduct =
      specTextMatch { category := some "shoe" } sampleProduct ∧
    specFieldOk (some "shoe") sampleProduct.category = true :=
  ⟨(c4_filter_is_conjunction { category := some "shoe" } sampleProduct).2 rfl rfl,
    ((c4_filter_is_conjunction { category := some "shoe" } sampleProduct).1 (by decide)).1⟩

/-- A price parameter that is absent, empty, malformed or zero yields no
bound. -/
theorem jsPriceBound_falsy (s : String)
    (h : parseFloatJS s = none ∨ parseFloatJS s = some 0) :
    jsPriceBound (parsedPrice (some s)) = none := by
  by_cases he : s = ""
  · simp [parsedPrice, he, jsPriceBound]
  · rcases h with h | h <;> simp [parsedPrice, he, h, jsPriceBound]

/-- A price parameter parsing to a non-zero number yields exactly that
bound. -/
theorem jsPriceBound_active (s : String) (q : ℚ) (hq : parseFloatJS s = some q)
    (hq0 : q ≠ 0) : jsPriceBound (parsedPrice (some s)) = some q := by
  have hs : s ≠ "" := by
    intro he
    subst he
    rw [show parseFloatJS "" = none by rfl] at hq
    exact Option.noConfusion hq
  simp [parsedPrice, hs, hq, jsPriceBound, hq0]

/-- Evaluation fact: `parseFloat("0")` is the number 0 (and hence falsy). -/
theorem parseFloatJS_zero : parseFloatJS "0" = some 0 := by
  show some ((digitsVal (['0'].takeWhile Char.isDigit) : ℚ) +
      (digitsVal ([] : List Char) : ℚ) / (10 : ℚ) ^ ([] : List Char).length) = some 0
  rw [show ['0'].takeWhile Char.isDigit = ['0'] from by decide,
    show digitsVal ['0'] = 0 from by decide,
    show digitsVal ([] : List Char) = 0 from by decide]
  norm_num

/-- Evaluation fact: `parseFloat("3")` is the number 3. -/
theorem parseFloatJS_three : parseFloatJS "3" = some 3 := by
  show some ((digitsVal (['3'].takeWhile Char.isDigit) : ℚ) +
      (digitsVal ([] : List Char) : ℚ) / (10 : ℚ) ^ ([] : List Char).length) = some 3
  rw [show ['3'].takeWhile Char.isDigit = ['3'] from by decide,
    show digitsVal ['3'] = 3 from by decide,
    show digitsVal ([] : List Char) = 0 from by decide]
  norm_num

/-- C5: a `minPrice`/`maxPrice` of `0` is treated exactly as an absent
parameter (the built query is identical), a malformed non-numeric price
string likewise imposes no constraint instead of failing, and a non-zero
numeric bound is the inclusive constraint `retail_price ≥ minPrice` /
`retail_price ≤ maxPrice` on every returned product. -/
theorem c5_price_zero_is_absent (params : ListParams) (s : String) (p : Product) :
    ((parseFloatJS s = none ∨ parseFloatJS s = some 0) →
      buildQuery { params with minPrice := some s } =
        buildQuery { params with minPrice := none } ∧
      buildQuery { params with maxPrice := some s } =
        buildQuery { params with maxPrice := none }) ∧
    (∀ q : ℚ, parseFloatJS s = some q → q ≠ 0 →
      (buildQuery { params with minPrice := some s }).priceGte = some q ∧
      (buildQuery { params with maxPrice := some s }).priceLte = some q ∧
      (evalQuery (buildQuery { params with minPrice := some s }) p = true →
        q ≤ p.retail_price) ∧
      (evalQuery (buildQuery { params with maxPrice := some s }) p = true →
        p.retail_price ≤ q)) := by
  constructor
  · intro h
    have hb := jsPriceBound_falsy s h
    constructor <;> (simp only [buildQuery]; rw [hb]; rfl)
  · intro q hq hq0
    have hb := jsPriceBound_active s q hq hq0
    have hgte : (buildQuery { params with minPrice := some s }).priceGte = some q := by
      simp [buildQuery, hb]
    have hlte : (buildQuery { params with maxPrice := some s }).priceLte = some q := by
      simp [buildQuery, hb]
    exact ⟨hgte, hlte,
      fun h => evalQuery_priceGte _ p q hgte h,
      fun h => evalQuery_priceLte _ p q hlte h⟩

/-- Witness for C5: `minPrice=0` builds the same query as no `minPrice`,
and `minPrice=3` installs the bound `3`. -/
theorem c5_price_zero_is_absent_witness :
    buildQuery { minPrice := some "0" } = buildQuery { minPrice := none } ∧
    (buildQuery { minPrice := some "3" }).priceGte = some 3 :=
  ⟨((c5_price_zero_is_absent {} "0" sampleProduct).1 (Or.inr parseFloatJS_zero)).1,
    ((c5_price_zero_is_absent {} "3" sampleProduct).2 3 parseFloatJS_three (by norm_num)).1⟩

/-- C6: the field of the ordering directive is `sortBy` whenever a non-empty one
is supplied — including unknown field names, which are passed through
unvalidated — and `"id"` when it is absent; the direction is descending
(`-1`) exactly when `sortOrder` is the string `"desc"` and ascending (`1`)
for every other value, including absence. -/
theorem c6_sort_directive (sb so : Option String) :
    (sb = none → (mkSortDirective sb so).1 = "id") ∧
    (∀ s, sb = some s → s ≠ "" → (mkSortDirective sb so).1 = s) ∧
    ((mkSortDirective sb so).2 = -1 ↔ so = some "desc") ∧
    ((mkSortDirective sb so).2 = 1 ↔ so ≠ some "desc") := by
  refine ⟨?_, ?_, ?_, ?_⟩
  · intro h
    subst h
    rfl
  · intro s h hs
    subst h
    simp [mkSortDirective, jsOrStr, hs]
  · by_cases h : so = some "desc" <;> simp [mkSortDirective, h]
  · by_cases h : so = some "desc" <;> simp [mkSortDirective, h]

/-- Witness for C6 at an unknown field name and at an absent `sortBy`. -/
theorem c6_sort_directive_witness :
    (mkSortDirective (some "notAField") (some "desc")).1 = "notAField" ∧
    (mkSortDirective none none).1 = "id" :=
  ⟨(c6_sort_directive (some "notAField") (some "desc")).2.1 "notAField" rfl (by decide),
    (c6_sort_directive none none).1 rfl⟩

/-- Lookup `findOne` by id on a catalog with unique ids returns the member with
that id. -/
theorem find?_unique_id (l : List Product) (n : Int) (p : Product)
    (hmem : p ∈ l) (hid : (p.id : Int) = n)
    (huniq : l.Pairwise (fun a b => a.id ≠ b.id)) :
    l.find? (fun q => (q.id : Int) = n) = some p := by
  induction l with
  | nil => cases hmem
  | cons a t ih =>
      obtain ⟨hhead, htail⟩ := List.pairwise_cons.mp huniq
      by_cases ha : (a.id : Int) = n
      · have haid : a.id = p.id := by exact_mod_cast ha.trans hid.symm
        rcases List.mem_cons.mp hmem with h | h
        · subst h
          simp [List.find?_cons, ha]
        · exact absurd haid (hhead p h)
      · rcases List.mem_cons.mp hmem with h | h
        · subst h
          exact absurd hid ha
        · rw [List.find?_cons_of_neg _ (by simpa using ha)]
          exact ih h htail

/-- C7: a non-numeric id path parameter yields the 400 bad-format response
with no store access; a numeric id with no matching record yields a 404
whose message names the id; and a numeric id matching a record of the
unique-id catalog yields that record. -/
theorem c7_get_by_id (idStr : String) (catalog : List Product) :
    (isDigitStr idStr = false →
      getProductById idStr catalog =
        .badFormat "Invalid product ID format. ID must be a number" ∧
      getProductById idStr catalog = getProductById idStr []) ∧
    (isDigitStr idStr = true →
      ((∀ p ∈ catalog, (p.id : Int) ≠ (parseIntJS idStr).getD 0) →
        getProductById idStr catalog =
          .notFound ("Product with ID " ++ toString ((parseIntJS idStr).getD 0)
            ++ " not found")) ∧
      (∀ p, p ∈ catalog → (p.id : Int) = (parseIntJS idStr).getD 0 →
        catalog.Pairwise (fun a b => a.id ≠ b.id) →
        getProductById idStr catalog = .found p)) := by
  constructor
  · intro h
    constructor <;> simp [getProductById, h]
  · intro h
    constructor
    · intro hnone
      have : catalog.find? (fun q => ((q.id : Int) = (parseIntJS idStr).getD 0 : Bool))
          = none := by
        rw [List.find?_eq_none]
        intro p hp
        simpa using hnone p hp
      simp [getProductById, h, this]
    · intro p hmem hid huniq
      have := find?_unique_id catalog ((parseIntJS idStr).getD 0) p hmem hid huniq
      simp [getProductById, h, this]

/-- Witness for C7: bad format, missing id (message naming it), and an
existing id on the sample catalog. -/
theorem c7_get_by_id_witness :
    getProductById "abc" sampleCatalog =
      .badFormat "Invalid product ID format. ID must be a number" ∧
    getProductById "7" sampleCatalog =
      .notFound ("Product with ID " ++ toString ((parseIntJS "7").getD 0) ++ " not found") ∧
    getProductById "1" sampleCatalog = .found sampleProduct :=
  ⟨((c7_get_by_id "abc" sampleCatalog).1 (by decide)).1,
    ((c7_get_by_id "7" sampleCatalog).2 (by decide)).1 (by decide),
    ((c7_get_by_id "1" sampleCatalog).2 (by decide)).2 sampleProduct (by decide) (by decide)
      (by decide)⟩

/-- C8: a term shorter than 2 characters after trimming yields the 400
too-short response with no store access; otherwise the response is a
success envelope (even with zero matches) whose data is the OR-substring
matches truncated to the limit (default 10, no upper bound), and whose
`count` equals the length of the data. -/
theorem c8_search_by_term (term : String) (limitQ : Option String) (catalog : List Product) :
    ((jsTrim term).length < 2 →
      searchProducts term limitQ catalog =
        .tooShort "Search term must be at least 2 characters long" ∧
      searchProducts term limitQ catalog = searchProducts term limitQ []) ∧
    (2 ≤ (jsTrim term).length →
      searchProducts term limitQ catalog =
        .ok ((catalog.filter (searchMatch term)).take
              (jsOrInt (limitQ.bind parseIntJS) 10).toNat)
          ((catalog.filter (searchMatch term)).take
              (jsOrInt (limitQ.bind parseIntJS) 10).toNat).length
          term ∧
      (limitQ = none → jsOrInt (limitQ.bind parseIntJS) 10 = 10)) := by
  constructor
  · intro h
    constructor <;> simp [searchProducts, h]
  · intro h
    have hne : term ≠ "" := by
      intro he
      rw [he] at h
      exact absurd h (by decide)
    constructor
    · simp [searchProducts, hne, Nat.not_lt.mpr h]
    · intro hq
      subst hq
      rfl

/-- Witness for C8: a one-character term is rejected; the term `nike`
matches the sample product with the default limit of 10. -/
theorem c8_search_by_term_witness :
    searchProducts "a" none sampleCatalog =
      .tooShort "Search term must be at least 2 characters long" ∧
    searchProducts "nike" none sampleCatalog =
      .ok ((sampleCatalog.filter (searchMatch "nike")).take
            (jsOrInt ((none : Option String).bind parseIntJS) 10).toNat)
        ((sampleCatalog.filter (searchMatch "nike")).take
            (jsOrInt ((none : Option String).bind parseIntJS) 10).toNat).length
        "nike" :=
  ⟨((c8_search_by_term "a" none sampleCatalog).1 (by decide)).1,
    ((c8_search_by_term "nike" none sampleCatalog).2 (by decide)).1⟩

/-- C9: on the empty catalog every count and every price/cost range field
of the stats response is 0, with no division failure; on a non-empty
catalog the `average` fields are the mean rounded to two decimal places. -/
theorem c9_stats (catalog : List Product) :
    statsEndpoint [] = ⟨0, 0, 0, 0, ⟨0, 0, 0⟩, ⟨0, 0, 0⟩⟩ ∧
    (catalog ≠ [] →
      (statsEndpoint catalog).priceRange.average =
        round2 ((catalog.map Product.retail_price).sum / (catalog.length : ℚ)) ∧
      (statsEndpoint catalog).costRange.average =
        round2 ((catalog.map Product.cost).sum / (catalog.length : ℚ))) := by
  constructor
  · have hz : round2 (0 : ℚ) = 0 := by
      simp only [round2, jsRound]
      rw [show ((0 : ℚ) * 100 + 1 / 2) = 1 / 2 by norm_num]
      rw [show ⌊(1 / 2 : ℚ)⌋ = 0 by rw [Int.floor_eq_iff]; norm_num]
      norm_num
    simp [statsEndpoint, aggStats, jsNumOrZero, hz]
  · intro hne
    have key : ∀ q : ℚ, round2 (jsNumOrZero (some q)) = round2 q := by
      intro q
      by_cases h0 : q = 0
      · simp [jsNumOrZero, h0]
      · simp [jsNumOrZero, h0]
    match catalog, hne with
    | a :: t, _ =>
      have hsome : aggStats (a :: t) = some
          { avgPrice := ((a :: t).map Product.retail_price).sum / (((a :: t).length : ℕ) : ℚ)
            minPrice := qMin ((a :: t).map Product.retail_price)
            maxPrice := qMax ((a :: t).map Product.retail_price)
            avgCost := ((a :: t).map Product.cost).sum / (((a :: t).length : ℕ) : ℚ)
            minCost := qMin ((a :: t).map Product.cost)
            maxCost := qMax ((a :: t).map Product.cost) } := rfl
      constructor
      · show round2 (jsNumOrZero ((aggStats (a :: t)).map AggResult.avgPrice)) =
          round2 (((a :: t).map Product.retail_price).sum / (((a :: t).length : ℕ) : ℚ))
        rw [hsome, Option.map_some', key]
      · show round2 (jsNumOrZero ((aggStats (a :: t)).map AggResult.avgCost)) =
          round2 (((a :: t).map Product.cost).sum / (((a :: t).length : ℕ) : ℚ))
        rw [hsome, Option.map_some', key]

/-- Witness for C9: the average fields of the two-record sample catalog are the
rounded means. -/
theorem c9_stats_witness :
    (statsEndpoint sampleCatalog2).priceRange.average =
      round2 ((sampleCatalog2.map Product.retail_price).sum / (sampleCatalog2.length : ℚ)) ∧
    (statsEndpoint sampleCatalog2).costRange.average =
      round2 ((sampleCatalog2.map Product.cost).sum / (sampleCatalog2.length : ℚ)) :=
  (c9_stats sampleCatalog2).2 (by decide)

end ProductsApi
